import Mathlib

/-!
Shallow embedding of the HeartShard quantum narrative engine
(`heartshard_engine_v2.py`) of the Saltflower repository.

Python float scalars (bond strengths, entropies, timestamps) are modelled
as exact fractions (`Frac`): an integer numerator over an integer
denominator kept positive by construction, compared by cross
multiplication.  Python's ambient `random` module and `datetime.now()`
clock are modelled as an explicit environment `Env` of value streams
threaded through every operation that draws from them.  Python `dict`s
become insertion-ordered association lists (`dictLookup` / `dictInsert`,
which replaces in place on an existing key and appends otherwise) and
Python `set`s become duplicate-free lists (`setInsert`).
-/

/-- Exact fraction standing in for a Python float.  All constructors used
by the embedding keep `den` positive. -/
structure Frac where
  num : Int
  den : Int
deriving DecidableEq

def Frac.zero : Frac := ⟨0, 1⟩

def Frac.one : Frac := ⟨1, 1⟩

def Frac.add (a b : Frac) : Frac := ⟨a.num * b.den + b.num * a.den, a.den * b.den⟩

def Frac.sub (a b : Frac) : Frac := ⟨a.num * b.den - b.num * a.den, a.den * b.den⟩

def Frac.mul (a b : Frac) : Frac := ⟨a.num * b.num, a.den * b.den⟩

/-- Division by an integer constant (the only divisions the engine performs
are by the positive literal 2). -/
def Frac.divInt (a : Frac) (k : Int) : Frac := ⟨a.num, a.den * k⟩

def Frac.le (a b : Frac) : Prop := a.num * b.den ≤ b.num * a.den

def Frac.lt (a b : Frac) : Prop := a.num * b.den < b.num * a.den

instance (a b : Frac) : Decidable (Frac.le a b) := by unfold Frac.le; infer_instance

instance (a b : Frac) : Decidable (Frac.lt a b) := by unfold Frac.lt; infer_instance

/-- Python `min(a, b)` (returns the first argument on ties). -/
def Frac.fmin (a b : Frac) : Frac := if Frac.le a b then a else b

/-- Python `max(a, b)` (returns the second argument only when strictly larger). -/
def Frac.fmax (a b : Frac) : Frac := if Frac.le b a then a else b

/-- Clamp into the unit interval; used to model that Python `random.random()`
always yields a value in [0, 1). -/
def Frac.clamp01 (a : Frac) : Frac := Frac.fmin Frac.one (Frac.fmax Frac.zero a)

/-- `0 ≤ f ≤ 1` together with well-formedness of the representation. -/
def Frac.inUnit (f : Frac) : Prop := 0 < f.den ∧ 0 ≤ f.num ∧ f.num ≤ f.den

instance (f : Frac) : Decidable (Frac.inUnit f) := by unfold Frac.inUnit; infer_instance

/-- Interpretation of a fraction as a rational number. -/
def Frac.toRat (f : Frac) : ℚ := (f.num : ℚ) / (f.den : ℚ)

/-- Code-point lexicographic comparison of character lists, as used by
Python string comparison inside `sorted`. -/
def charListLe : List Char → List Char → Bool
  | [], _ => true
  | _ :: _, [] => false
  | a :: as, b :: bs =>
    if a.toNat < b.toNat then true
    else if b.toNat < a.toNat then false
    else charListLe as bs

def strLe (a b : String) : Bool := charListLe a.data b.data

/-- `RelationshipMatrix._normalize_key`: `tuple(sorted([a, b]))`. -/
def normalize_key (a b : String) : String × String :=
  if strLe a b then (a, b) else (b, a)

/-- `Polarity`: constitutional minimum, A or -A. -/
inductive Polarity
  | positive
  | negative
deriving DecidableEq, Fintype

def Polarity.value : Polarity → Int
  | .positive => 1
  | .negative => -1

def Polarity.flip : Polarity → Polarity
  | .positive => .negative
  | .negative => .positive

/-- 3-axis polarity state. -/
structure PolarityState where
  x : Polarity
  y : Polarity
  z : Polarity
deriving DecidableEq, Fintype

instance : Inhabited PolarityState := ⟨⟨.positive, .positive, .positive⟩⟩

def PolarityState.to_tuple (p : PolarityState) : Int × Int × Int :=
  (p.x.value, p.y.value, p.z.value)

/-- `PolarityState.distance_to`: Hamming distance over the 3 axes. -/
def PolarityState.distance_to (p other : PolarityState) : Nat :=
  (if p.x ≠ other.x then 1 else 0) +
  (if p.y ≠ other.y then 1 else 0) +
  (if p.z ≠ other.z then 1 else 0)

/-- The full 3-axis inversion of a polarity state. -/
def PolarityState.fullFlip (p : PolarityState) : PolarityState :=
  ⟨p.x.flip, p.y.flip, p.z.flip⟩

/-- `Signal`: immutable interaction record. -/
structure Signal where
  source : String
  target : String
  polarity_change : Option PolarityState
  friction : Frac
  timestamp : Frac
  entropy_delta : Frac
  event_type : String
  signal_location : Option PolarityState := none
  generation : Nat := 1
  lineage : List String := []
deriving DecidableEq

/-- Tag distinguishing the two entity kinds the engine instantiates
(`Character` vs `Artifact` subclasses in the source). -/
inductive EntityKind
  | character
  | artifact
deriving DecidableEq

/-- Flattened `Entity`/`Character`/`Artifact` record: the common fields plus
the kind tag and each subclass's extra fields. -/
structure Entity where
  name : String
  polarity : PolarityState
  entropy : Frac := ⟨1, 2⟩
  bonds : List String := []
  signals_sent : List Signal := []
  signals_received : List Signal := []
  observed : Bool := false
  diagonal : List PolarityState := []
  birth_signal : Option Signal := none
  generation : Nat := 1
  lineage : List String := []
  kind : EntityKind := .character
  archetype : String := "wanderer"
  core_wound : String := ""
  artifact_bonded : Option String := none
  inside_eye : Bool := false
  artifact_type : String := "shard"
  bonded_character : Option String := none
  power_level : Frac := ⟨1, 1⟩
deriving DecidableEq

instance : Inhabited Entity := ⟨{ name := "", polarity := default }⟩

/-- `Entity.bond_with`: add to the bonds set, entropy decreases by 0.1
clamped at 0. -/
def Entity.bond_with (e : Entity) (other : String) : Entity :=
  { e with
    bonds := if other ∈ e.bonds then e.bonds else e.bonds ++ [other],
    entropy := Frac.fmax Frac.zero (e.entropy.sub ⟨1, 10⟩) }

/-- `Entity.unbond_from`: remove from the bonds set (when present), entropy
increases by 0.1 clamped at 1. -/
def Entity.unbond_from (e : Entity) (other : String) : Entity :=
  if other ∈ e.bonds then
    { e with
      bonds := e.bonds.filter (fun b => b ≠ other),
      entropy := Frac.fmin Frac.one (e.entropy.add ⟨1, 10⟩) }
  else e

/-- `Character.can_enter_eye`: at least one bond and entropy < 0.8. -/
def Entity.can_enter_eye (e : Entity) : Bool :=
  decide (1 ≤ e.bonds.length) && decide (Frac.lt e.entropy ⟨8, 10⟩)

/-- The closed set of bond types. -/
inductive BondType
  | trust
  | opposition
  | protection
  | dependency
  | mirror
  | mediated
  | unknown
deriving DecidableEq

def BondType.value : BondType → String
  | .trust => "trust"
  | .opposition => "opposition"
  | .protection => "protection"
  | .dependency => "dependency"
  | .mirror => "mirror"
  | .mediated => "mediated"
  | .unknown => "unknown"

/-- `list(BondType)` in Python enum declaration order. -/
def bondTypeList : List BondType :=
  [.trust, .opposition, .protection, .dependency, .mirror, .mediated, .unknown]

/-- `Bond`: relationship between two entities. -/
structure Bond where
  entity_a : String
  entity_b : String
  bond_type : BondType
  strength : Frac
  formed_at : Frac
  signals : List Signal := []
deriving DecidableEq

/-- Lookup in an insertion-ordered association list (Python `dict.get`). -/
def dictLookup [DecidableEq κ] (k : κ) : List (κ × V) → Option V
  | [] => none
  | (k', v) :: rest => if k' = k then some v else dictLookup k rest

/-- Python `dict` assignment: replace in place when the key is present,
append otherwise. -/
def dictInsert [DecidableEq κ] (k : κ) (v : V) : List (κ × V) → List (κ × V)
  | [] => [(k, v)]
  | (k', v') :: rest =>
    if k' = k then (k, v) :: rest else (k', v') :: dictInsert k v rest

/-- Python `set.add` on a duplicate-free list. -/
def setInsert [DecidableEq α] (x : α) (l : List α) : List α :=
  if x ∈ l then l else l ++ [x]

/-- `RelationshipMatrix`: bonds dict plus the collapsed-pairs set. -/
structure RelationshipMatrix where
  bonds : List ((String × String) × Bond) := []
  collapsed_bonds : List (String × String) := []
deriving DecidableEq

/-- `RelationshipMatrix.create_bond`: strengthen an existing bond for the
normalized pair (`strength = min(1, old + new * 0.5)`, type kept) or create
a new bond carrying the given type and strength unchanged. -/
def RelationshipMatrix.create_bond (m : RelationshipMatrix) (a b : String)
    (bond_type : BondType) (strength : Frac) (now : Frac) : RelationshipMatrix :=
  let key := normalize_key a b
  match dictLookup key m.bonds with
  | some old =>
    let strengthened : Bond :=
      { old with strength := Frac.fmin Frac.one (old.strength.add (strength.mul ⟨1, 2⟩)) }
    { m with bonds := dictInsert key strengthened m.bonds }
  | none =>
    let fresh : Bond :=
      { entity_a := a, entity_b := b, bond_type := bond_type,
        strength := strength, formed_at := now }
    { m with bonds := dictInsert key fresh m.bonds }

/-- `RelationshipMatrix.get_bond`: return the bond for the normalized pair
and, when one exists, add the pair to the collapsed set. -/
def RelationshipMatrix.get_bond (m : RelationshipMatrix) (a b : String) :
    Option Bond × RelationshipMatrix :=
  let key := normalize_key a b
  match dictLookup key m.bonds with
  | some bond => (some bond, { m with collapsed_bonds := setInsert key m.collapsed_bonds })
  | none => (none, m)

/-- `RelationshipMatrix.get_bonded_to`: all names paired with `entity`. -/
def RelationshipMatrix.get_bonded_to (m : RelationshipMatrix) (entity : String) : List String :=
  m.bonds.filterMap (fun kb =>
    if kb.1.1 = entity then some kb.1.2
    else if kb.1.2 = entity then some kb.1.1
    else none)

/-- `RelationshipMatrix.snapshot` (the `datetime.now()` stamp is passed in). -/
structure MatrixSnapshot where
  bonds : List ((String × String) × (String × Frac))
  collapsed : List (String × String)
  timestamp : Frac
deriving DecidableEq

def RelationshipMatrix.snapshot (m : RelationshipMatrix) (now : Frac) : MatrixSnapshot :=
  { bonds := m.bonds.map (fun kb => (kb.1, (kb.2.bond_type.value, kb.2.strength))),
    collapsed := m.collapsed_bonds,
    timestamp := now }

/-- `TimelineDB.get_state_snapshot` result. -/
structure TimelineSnapshot where
  time : Frac
  signals : Nat
  exclusions : Nat
  branches : Nat
  last_exclusion : Option String
deriving DecidableEq

/-- `ExclusionEvent`: irreversible Eye-entry record. -/
structure ExclusionEvent where
  character : String
  bonds_at_entry : MatrixSnapshot
  world_state : TimelineSnapshot
  vincent_healing : Frac
  timestamp : Frac
  eye_closed : Bool := false
  new_world_seed : Option Int := none
deriving DecidableEq

/-- `TimelineDB`: signal log, exclusion log and child branches. -/
structure TimelineDB where
  current_time : Frac
  signals : List Signal
  exclusions : List ExclusionEvent
  branches : List TimelineDB
  branch_point : Option Frac

/-- A fresh `TimelineDB()`. -/
def TimelineDB.empty : TimelineDB :=
  { current_time := ⟨0, 1⟩, signals := [], exclusions := [], branches := [],
    branch_point := none }

/-- `TimelineDB.broadcast_signal`: append and move the clock to the
signal's timestamp. -/
def TimelineDB.broadcast_signal (t : TimelineDB) (signal : Signal) : TimelineDB :=
  { t with signals := t.signals ++ [signal], current_time := signal.timestamp }

/-- `TimelineDB.record_exclusion`: append the event and mark it closed
(the Python code mutates the very object it appended, so the stored event
carries `eye_closed = True`). -/
def TimelineDB.record_exclusion (t : TimelineDB) (event : ExclusionEvent) :
    TimelineDB × ExclusionEvent :=
  let closed := { event with eye_closed := true }
  ({ t with exclusions := t.exclusions ++ [closed] }, closed)

/-- `TimelineDB.branch_from_exclusion`: child copies both logs, clock reset
to 0, branch point at the event's timestamp; the child is appended to the
parent's branches.  Returns (updated parent, child).  The `new_bonds`
argument is accepted and ignored, as in the source. -/
def TimelineDB.branch_from_exclusion (t : TimelineDB) (exclusion : ExclusionEvent)
    (_new_bonds : List ((String × String) × (String × Frac))) : TimelineDB × TimelineDB :=
  let new_timeline : TimelineDB :=
    { current_time := ⟨0, 1⟩, signals := t.signals, exclusions := t.exclusions,
      branches := [], branch_point := some exclusion.timestamp }
  ({ t with branches := t.branches ++ [new_timeline] }, new_timeline)

def TimelineDB.get_state_snapshot (t : TimelineDB) : TimelineSnapshot :=
  { time := t.current_time, signals := t.signals.length,
    exclusions := t.exclusions.length, branches := t.branches.length,
    last_exclusion := t.exclusions.getLast?.map ExclusionEvent.character }

/-- Ambient nondeterminism: streams standing for `random.choice` indices,
`random.random()` unit draws, and `datetime.now()` timestamps, each with
its own cursor. -/
structure Env where
  choices : Nat → Nat
  unifs : Nat → Frac
  times : Nat → Frac
  cIdx : Nat
  uIdx : Nat
  tIdx : Nat

def Env.now (env : Env) : Frac × Env :=
  (env.times env.tIdx, { env with tIdx := env.tIdx + 1 })

/-- `random.choice(l)` (never called on an empty list by the engine). -/
def Env.choice (env : Env) (l : List α) (dflt : α) : α × Env :=
  (l.getD (env.choices env.cIdx % l.length) dflt, { env with cIdx := env.cIdx + 1 })

/-- `random.random()`: the stream value, clamped into the unit interval the
real generator guarantees. -/
def Env.randomUnit (env : Env) : Frac × Env :=
  (Frac.clamp01 (env.unifs env.uIdx), { env with uIdx := env.uIdx + 1 })

/-- `random.uniform(lo, hi) = lo + (hi - lo) * random.random()`. -/
def Env.uniform (env : Env) (lo hi : Frac) : Frac × Env :=
  let r := env.randomUnit
  (lo.add ((hi.sub lo).mul r.1), r.2)

/-- `RelationshipMatrix.collapse_new_bond`: synthesize a bond between `a`
and `b` after their mediator is excluded.  Both prior bonds present:
shared type (or a uniform pick from opposition/dependency) with averaged
strength; otherwise a uniform pick from the full type set with a uniform
strength in [0.3, 0.7]. -/
def RelationshipMatrix.collapse_new_bond (m : RelationshipMatrix)
    (a b excluded_mediator : String) (env : Env) :
    Bond × RelationshipMatrix × Env :=
  let ra := m.get_bond a excluded_mediator
  let rb := ra.2.get_bond b excluded_mediator
  let tse : BondType × Frac × Env :=
    match ra.1, rb.1 with
    | some old_bond_a, some old_bond_b =>
      if old_bond_a.bond_type = old_bond_b.bond_type then
        (old_bond_a.bond_type, (old_bond_a.strength.add old_bond_b.strength).divInt 2, env)
      else
        let c := env.choice [BondType.opposition, BondType.dependency] BondType.opposition
        (c.1, (old_bond_a.strength.add old_bond_b.strength).divInt 2, c.2)
    | _, _ =>
      let c := env.choice bondTypeList BondType.trust
      let u := c.2.uniform ⟨3, 10⟩ ⟨7, 10⟩
      (c.1, u.1, u.2)
  let n := tse.2.2.now
  let new_bond : Bond :=
    { entity_a := a, entity_b := b, bond_type := tse.1, strength := tse.2.1,
      formed_at := n.1 }
  let key := normalize_key a b
  (new_bond, { rb.2 with bonds := dictInsert key new_bond rb.2.bonds }, n.2)

/-- The dict returned by `_reshuffle_bonds_generational` /
`_generate_next_generation` (pair of names → (bond-type value, strength)). -/
structure NextGenConfig where
  parent : String
  next_location : Int × Int × Int
  generation : Nat
  lineage : List String
  bonds : List ((String × String) × (String × Frac))
  message : String
deriving DecidableEq

/-- Result dict of `enter_the_maw`. -/
inductive MawResult
  | invalidEntity
  | alreadyExcluded
  | notReady
  | success (character : String) (birth_location : Int × Int × Int)
      (birth_generation : Nat) (birth_lineage : List String)
      (playthrough : Nat) (new_configuration : NextGenConfig) (message : String)
deriving DecidableEq

def MawResult.isSuccess : MawResult → Bool
  | .success _ _ _ _ _ _ _ => true
  | _ => false

/-- `HeartShardEngine` mutable state. -/
structure HeartShardEngine where
  timeline : TimelineDB
  bonds : RelationshipMatrix
  entities : List (String × Entity)
  entered_eye : List String
  playthrough : Nat

/-- `_find_similar_salt`: identity, the 3 single-axis flips and the 3
two-axis flips, in source order. -/
def find_similar_salt (polarity : PolarityState) : List PolarityState :=
  [ polarity,
    { polarity with x := polarity.x.flip },
    { polarity with y := polarity.y.flip },
    { polarity with z := polarity.z.flip },
    { polarity with x := polarity.x.flip, y := polarity.y.flip },
    { polarity with x := polarity.x.flip, z := polarity.z.flip },
    { polarity with y := polarity.y.flip, z := polarity.z.flip } ]

/-- One iteration of the `_reshuffle_bonds_generational` loop body. -/
def reshuffleStep (new_polarity : PolarityState) (character : String)
    (entities : List (String × Entity))
    (acc : List ((String × String) × (String × Frac)) × Env) (other : String) :
    List ((String × String) × (String × Frac)) × Env :=
  let other_entity := (dictLookup other entities).getD default
  let distance := new_polarity.distance_to other_entity.polarity
  let ste : Frac × BondType × Env :=
    if distance ≤ 1 then
      let c := acc.2.choice [BondType.trust, BondType.protection] BondType.trust
      (⟨8, 10⟩, c.1, c.2)
    else if distance = 2 then
      let c := acc.2.choice [BondType.dependency, BondType.mirror] BondType.dependency
      (⟨5, 10⟩, c.1, c.2)
    else (⟨2, 10⟩, BondType.unknown, acc.2)
  let r := ste.2.2.randomUnit
  if Frac.lt r.1 ste.1 then
    (dictInsert (character, other) (ste.2.1.value, ste.1) acc.1, r.2)
  else (acc.1, r.2)

/-- `_reshuffle_bonds_generational`: iterate over every other non-Vincent
Character, in entity-dict order. -/
def reshuffle_bonds_generational (character : String) (new_polarity : PolarityState)
    (entities : List (String × Entity)) (env : Env) :
    List ((String × String) × (String × Frac)) × Env :=
  let all_chars := entities.filterMap (fun kv =>
    if kv.2.kind = EntityKind.character ∧ kv.1 ≠ character ∧ kv.1 ≠ "vincent"
    then some kv.1 else none)
  all_chars.foldl (reshuffleStep new_polarity character entities) ([], env)

/-- `_generate_next_generation`: choose one of the 7 similar-salt states,
rebirth the parent entity in place, and propose next-generation bonds. -/
def generate_next_generation (st : HeartShardEngine) (birth_signal : Signal) (env : Env) :
    NextGenConfig × HeartShardEngine × Env :=
  let parent_name := birth_signal.source
  let parent_polarity := birth_signal.signal_location.getD default
  let similar_polarities := find_similar_salt parent_polarity
  let c := env.choice similar_polarities parent_polarity
  let next_polarity := c.1
  let st1 :=
    match dictLookup parent_name st.entities with
    | some parent =>
      let reborn : Entity :=
        { parent with
          polarity := next_polarity,
          generation := birth_signal.generation,
          lineage := birth_signal.lineage,
          birth_signal := some birth_signal }
      { st with entities := dictInsert parent_name reborn st.entities }
    | none => st
  let nb := reshuffle_bonds_generational parent_name next_polarity st1.entities c.2
  ({ parent := parent_name, next_location := next_polarity.to_tuple,
     generation := birth_signal.generation, lineage := birth_signal.lineage,
     bonds := nb.1,
     message := parent_name ++ " re-emerges as if their child, in similar salt" },
   st1, nb.2)

/-- The birth Signal built inside `enter_the_maw`. -/
def mawBirthSignal (character_name : String) (character : Entity) (now : Frac) : Signal :=
  { source := character_name, target := "next_generation",
    polarity_change := some character.polarity, friction := ⟨1, 1⟩,
    timestamp := now, entropy_delta := ⟨0, 1⟩, event_type := "generational_birth",
    signal_location := some character.polarity,
    generation := character.generation + 1,
    lineage := character.lineage ++ [character_name] }

/-- The ExclusionEvent built inside `enter_the_maw` (`vincent_healing` is
the literal 0.0 of the source). -/
def mawExclusionEvent (character_name : String) (bonds_at_entry : MatrixSnapshot)
    (world_state : TimelineSnapshot) (ts : Frac) : ExclusionEvent :=
  { character := character_name, bonds_at_entry := bonds_at_entry,
    world_state := world_state, vincent_healing := ⟨0, 1⟩, timestamp := ts }

/-- The success path of `enter_the_maw`, from the point where all three
guards have passed. -/
def mawSuccess (character_name : String) (character : Entity)
    (st : HeartShardEngine) (env : Env) : MawResult × HeartShardEngine × Env :=
  let entered := { character with inside_eye := true }
  let st1 := { st with
    entities := dictInsert character_name entered st.entities,
    entered_eye := setInsert character_name st.entered_eye }
  let n1 := env.now
  let birth_signal := mawBirthSignal character_name entered n1.1
  let st2 := { st1 with timeline := st1.timeline.broadcast_signal birth_signal }
  let g := generate_next_generation st2 birth_signal n1.2
  let new_config := g.1
  let st3 := g.2.1
  let n2 := g.2.2.now
  let event := mawExclusionEvent character_name (st3.bonds.snapshot n2.1)
    st3.timeline.get_state_snapshot birth_signal.timestamp
  let br := st3.timeline.branch_from_exclusion event new_config.bonds
  let st4 := { st3 with timeline := br.1, playthrough := st3.playthrough + 1 }
  (MawResult.success character_name
     ((birth_signal.signal_location.getD default).to_tuple)
     birth_signal.generation birth_signal.lineage st4.playthrough new_config
     (character_name ++ " enters the Maw. Their signal echoes into the next generation..."),
   st4, n2.2)

/-- `HeartShardEngine.enter_the_maw`: guard chain then the success path. -/
def enter_the_maw (st : HeartShardEngine) (character_name : String) (env : Env) :
    MawResult × HeartShardEngine × Env :=
  match dictLookup character_name st.entities with
  | none => (MawResult.invalidEntity, st, env)
  | some character =>
    if character.kind = EntityKind.character then
      if character.inside_eye then (MawResult.alreadyExcluded, st, env)
      else if character.can_enter_eye then mawSuccess character_name character st env
      else (MawResult.notReady, st, env)
    else (MawResult.invalidEntity, st, env)

/-- Character roster entry helper (`Character(...)` with `__post_init__`
recording the initial polarity in the diagonal). -/
def mkCharacter (key nm : String) (pol : PolarityState) (arch wound : String)
    (art : Option String) (ent : Frac) : String × Entity :=
  (key, { name := nm, polarity := pol, entropy := ent, diagonal := [pol],
          kind := EntityKind.character, archetype := arch, core_wound := wound,
          artifact_bonded := art })

/-- Artifact roster entry helper (`Artifact(...)`). -/
def mkArtifact (key nm : String) (pol : PolarityState) (atype : String)
    (bonded : Option String) (power : Frac) (ent : Frac) : String × Entity :=
  (key, { name := nm, polarity := pol, entropy := ent, diagonal := [pol],
          kind := EntityKind.artifact, artifact_type := atype,
          bonded_character := bonded, power_level := power })

/-- `_initialize_entities`: the 8 characters, Vincent, and the artifacts,
in source insertion order. -/
def initialEntities : List (String × Entity) :=
  [ mkCharacter "lila" "Lila" ⟨.positive, .negative, .positive⟩
      "quiet_wanderer" "hoards_heartshard_believes_only_for_self" (some "heartshard") ⟨3, 10⟩,
    mkCharacter "theo" "Theo" ⟨.negative, .positive, .positive⟩
      "branded_believer" "inherited_indoctrination_brand_numbs_mind" none ⟨6, 10⟩,
    mkCharacter "furin" "Furin" ⟨.positive, .positive, .negative⟩
      "mechanic_who_bleeds" "wants_to_fix_everything_blood_delusion" none ⟨5, 10⟩,
    mkCharacter "chanti" "Chanti" ⟨.negative, .negative, .positive⟩
      "jaded_fighter" "tilt_causes_explosion" (some "flameblade") ⟨8, 10⟩,
    mkCharacter "kai" "Kai" ⟨.positive, .positive, .positive⟩
      "abyss_child" "chased_mother_into_abyss_nearly_died" none ⟨4, 10⟩,
    mkCharacter "ori" "Ori" ⟨.negative, .positive, .negative⟩
      "liquid_sword" "fixation_on_fish_cost_his_life" none ⟨4, 10⟩,
    mkCharacter "ayni" "Ayni" ⟨.positive, .negative, .negative⟩
      "stone_pillar" "avalanche_disasters_from_rolling" none ⟨5, 10⟩,
    mkCharacter "ion" "Ion" ⟨.negative, .negative, .negative⟩
      "frequency_child" "fails_to_exist_if_escapes_ayni_field" none ⟨5, 10⟩,
    mkCharacter "vincent" "Vincent" ⟨.negative, .positive, .positive⟩
      "shard_construct" "no_real_self_driven_existence" none ⟨9, 10⟩,
    mkArtifact "heartshard" "Heartshard" ⟨.positive, .positive, .positive⟩
      "mirror_shard" (some "lila") ⟨1, 1⟩ ⟨1, 10⟩,
    mkArtifact "flameblade" "Flameblade" ⟨.negative, .negative, .negative⟩
      "consumption_shard" (some "chanti") ⟨12, 10⟩ ⟨9, 10⟩,
    mkArtifact "heartshield" "Heartshield" ⟨.positive, .positive, .positive⟩
      "fusion_dome" none ⟨2, 1⟩ ⟨5, 100⟩,
    mkArtifact "maw" "Maw" ⟨.negative, .negative, .negative⟩
      "cataclysm_wound" none ⟨3, 1⟩ ⟨95, 100⟩ ]

/-- `self.entities[key].bond_with(other)`. -/
def bondEntity (key other : String) (l : List (String × Entity)) : List (String × Entity) :=
  match dictLookup key l with
  | some e => dictInsert key (e.bond_with other) l
  | none => l

/-- `HeartShardEngine.__init__` followed by `_initialize_starting_bonds`
(each `create_bond` stamps a `datetime.now()` drawn from the clock
stream).  Note the seed bond `kai`–`oni` of the source, and that only the
first three seed bonds also update the entities' bonds sets. -/
def initEngine (env : Env) : HeartShardEngine × Env :=
  let ents0 := initialEntities
  let n1 := env.now
  let m1 := RelationshipMatrix.create_bond {} "lila" "heartshard" BondType.mirror ⟨1, 1⟩ n1.1
  let ents1 := bondEntity "heartshard" "lila" (bondEntity "lila" "heartshard" ents0)
  let n2 := n1.2.now
  let m2 := m1.create_bond "chanti" "flameblade" BondType.dependency ⟨9, 10⟩ n2.1
  let ents2 := bondEntity "flameblade" "chanti" (bondEntity "chanti" "flameblade" ents1)
  let n3 := n2.2.now
  let m3 := m2.create_bond "furin" "chanti" BondType.protection ⟨7, 10⟩ n3.1
  let ents3 := bondEntity "chanti" "furin" (bondEntity "furin" "chanti" ents2)
  let n4 := n3.2.now
  let m4 := m3.create_bond "flameblade" "heartshard" BondType.opposition ⟨8, 10⟩ n4.1
  let n5 := n4.2.now
  let m5 := m4.create_bond "kai" "oni" BondType.trust ⟨6, 10⟩ n5.1
  let n6 := n5.2.now
  let m6 := m5.create_bond "ayni" "ion" BondType.trust ⟨5, 10⟩ n6.1
  ({ timeline := TimelineDB.empty, bonds := m6, entities := ents3,
     entered_eye := [], playthrough := 1 }, n6.2)

/-- A concrete deterministic environment for witnesses. -/
def env0 : Env :=
  { choices := fun _ => 0, unifs := fun _ => ⟨0, 1⟩, times := fun k => ⟨(k : Int), 1⟩,
    cIdx := 0, uIdx := 0, tIdx := 0 }

def initialState : HeartShardEngine := (initEngine env0).1

def initialEnv : Env := (initEngine env0).2

/-- One `create_or_strengthen_bond` call with its arguments. -/
structure CreateCall where
  a : String
  b : String
  t : BondType
  s : Frac
  now : Frac
deriving DecidableEq

def applyCreateCalls (calls : List CreateCall) (m : RelationshipMatrix) : RelationshipMatrix :=
  calls.foldl (fun acc c => acc.create_bond c.a c.b c.t c.s c.now) m

/-- All stored bond strengths lie in [0, 1]. -/
def strengthsInUnit (m : RelationshipMatrix) : Prop :=
  ∀ kb ∈ m.bonds, Frac.inUnit kb.2.strength

instance (m : RelationshipMatrix) : Decidable (strengthsInUnit m) :=
  List.decidableBAll _ m.bonds

/-- Concrete signals for the timeline counterexample. -/
def sigLate : Signal :=
  { source := "a", target := "b", polarity_change := none, friction := ⟨1, 1⟩,
    timestamp := ⟨5, 1⟩, entropy_delta := ⟨0, 1⟩, event_type := "movement" }

def sigEarly : Signal :=
  { source := "c", target := "d", polarity_change := none, friction := ⟨1, 1⟩,
    timestamp := ⟨3, 1⟩, entropy_delta := ⟨0, 1⟩, event_type := "movement" }

/-- A matrix in which only `a` is bonded to the mediator `m`. -/
def oneSidedBond : Bond :=
  { entity_a := "a", entity_b := "m", bond_type := BondType.trust,
    strength := ⟨1, 2⟩, formed_at := ⟨0, 1⟩ }

def oneSidedMatrix : RelationshipMatrix :=
  { bonds := [(("a", "m"), oneSidedBond)], collapsed_bonds := [] }

/-! ### Helper lemmas -/

theorem dictLookup_insert_self [DecidableEq κ] (k : κ) (v : V) (l : List (κ × V)) :
    dictLookup k (dictInsert k v l) = some v := by
  induction l with
  | nil => simp [dictInsert, dictLookup]
  | cons hd tl ih =>
    by_cases h : hd.1 = k
    · simp [dictInsert, dictLookup, h]
    · simpa [dictInsert, dictLookup, h] using ih

theorem mem_dictInsert [DecidableEq κ] (k : κ) (v : V) (l : List (κ × V)) (x : κ × V)
    (hx : x ∈ dictInsert k v l) : x = (k, v) ∨ x ∈ l := by
  induction l with
  | nil => simpa [dictInsert] using hx
  | cons hd tl ih =>
    by_cases h : hd.1 = k
    · simp only [dictInsert, if_pos h, List.mem_cons] at hx
      rcases hx with hx | hx
      · exact Or.inl hx
      · exact Or.inr (List.mem_cons_of_mem _ hx)
    · simp only [dictInsert, if_neg h, List.mem_cons] at hx
      rcases hx with hx | hx
      · exact Or.inr (by simp [hx])
      · rcases ih hx with hx | hx
        · exact Or.inl hx
        · exact Or.inr (List.mem_cons_of_mem _ hx)

theorem dictLookup_mem [DecidableEq κ] {k : κ} {v : V} {l : List (κ × V)}
    (h : dictLookup k l = some v) : (k, v) ∈ l := by
  induction l with
  | nil => simp [dictLookup] at h
  | cons hd tl ih =>
    by_cases hh : hd.1 = k
    · simp only [dictLookup, if_pos hh, Option.some.injEq] at h
      subst h; subst hh
      exact List.mem_cons_self _ _
    · simp only [dictLookup, if_neg hh] at h
      exact List.mem_cons_of_mem _ (ih h)

theorem charListLe_total (a b : List Char) :
    charListLe a b = true ∨ charListLe b a = true := by
  induction a generalizing b with
  | nil => exact Or.inl rfl
  | cons x xs ih =>
    cases b with
    | nil => exact Or.inr rfl
    | cons y ys =>
      by_cases h1 : x.toNat < y.toNat
      · exact Or.inl (by simp [charListLe, h1])
      · by_cases h2 : y.toNat < x.toNat
        · exact Or.inr (by simp [charListLe, h1, h2])
        · rcases ih ys with h | h
          · exact Or.inl (by simp [charListLe, h1, h2, h])
          · exact Or.inr (by simp [charListLe, h1, h2, h])

theorem charListLe_antisymm (a b : List Char)
    (hab : charListLe a b = true) (hba : charListLe b a = true) : a = b := by
  induction a generalizing b with
  | nil =>
    cases b with
    | nil => rfl
    | cons y ys => simp [charListLe] at hba
  | cons x xs ih =>
    cases b with
    | nil => simp [charListLe] at hab
    | cons y ys =>
      by_cases h1 : x.toNat < y.toNat
      · exfalso
        have h2 : ¬ y.toNat < x.toNat := Nat.lt_asymm h1
        simp [charListLe, h1, h2] at hba
      · by_cases h2 : y.toNat < x.toNat
        · exfalso; simp [charListLe, h1, h2] at hab
        · have hxy : x = y := by
            have hn : x.toNat = y.toNat :=
              Nat.le_antisymm (Nat.not_lt.mp h2) (Nat.not_lt.mp h1)
            have hx := Char.ofNat_toNat x
            have hy := Char.ofNat_toNat y
            rw [← hx, ← hy, hn]
          subst hxy
          simp only [charListLe, if_neg h1, if_neg h2] at hab hba
          rw [ih ys hab hba]

theorem strLe_total (a b : String) : strLe a b = true ∨ strLe b a = true :=
  charListLe_total a.data b.data

theorem strLe_antisymm (a b : String) (hab : strLe a b = true) (hba : strLe b a = true) :
    a = b := by
  have h := charListLe_antisymm a.data b.data hab hba
  cases a; cases b; simp_all

theorem normalize_key_comm (a b : String) : normalize_key a b = normalize_key b a := by
  unfold normalize_key
  by_cases h1 : strLe a b = true
  · by_cases h2 : strLe b a = true
    · have h := strLe_antisymm a b h1 h2
      subst h; simp
    · simp [h1, h2]
  · have h2 : strLe b a = true := (strLe_total a b).resolve_left h1
    simp [h1, h2]

/-! ### Claim theorems -/

/-- Claim C7: for all entity names `a` and `b` and every matrix state,
`get_bond(a, b)` and `get_bond(b, a)` return identical data and leave the
matrix in identical states, because the bond key is normalized by sorting
the pair. -/
theorem C7_get_bond_symmetric (a b : String) (m : RelationshipMatrix) :
    m.get_bond a b = m.get_bond b a := by
  unfold RelationshipMatrix.get_bond
  rw [normalize_key_comm]

/-- Claim C5: the next-generation candidate set has exactly 7 pairwise
distinct members, never contains the parent's full 3-axis inversion, and
consists exactly of the states differing from the parent in at most 2 axes
(hence every candidate shares at least one axis value with the parent). -/
theorem C5_similar_salt_candidates :
    ∀ p : PolarityState,
      (find_similar_salt p).length = 7 ∧
      (find_similar_salt p).Nodup ∧
      p.fullFlip ∉ find_similar_salt p ∧
      ∀ q : PolarityState, q ∈ find_similar_salt p ↔ p.distance_to q ≤ 2 := by
  decide

theorem C5_similar_salt_candidates_witness :
    (find_similar_salt default).length = 7 ∧
    (find_similar_salt default).Nodup ∧
    PolarityState.fullFlip default ∉ find_similar_salt default ∧
    ∀ q : PolarityState, q ∈ find_similar_salt default ↔
      PolarityState.distance_to default q ≤ 2 :=
  C5_similar_salt_candidates default

/-- Claim C4: `branch_from_exclusion` yields a child whose signal and
exclusion logs equal the parent's logs at branch time, whose clock is
reset to 0 and whose branch point is the event's timestamp; broadcasting
any further signals on the parent leaves the registered child (and hence
its logs) unchanged. -/
theorem C4_branch_snapshot_independence (t : TimelineDB) (e : ExclusionEvent)
    (nb : List ((String × String) × (String × Frac))) (sigs : List Signal) :
    (t.branch_from_exclusion e nb).2.signals = t.signals ∧
    (t.branch_from_exclusion e nb).2.exclusions = t.exclusions ∧
    (t.branch_from_exclusion e nb).2.current_time = ⟨0, 1⟩ ∧
    (t.branch_from_exclusion e nb).2.branch_point = some e.timestamp ∧
    (sigs.foldl TimelineDB.broadcast_signal (t.branch_from_exclusion e nb).1).branches =
      t.branches ++ [(t.branch_from_exclusion e nb).2] := by
  refine ⟨rfl, rfl, rfl, rfl, ?_⟩
  have hb : ∀ (l : List Signal) (tl : TimelineDB),
      (l.foldl TimelineDB.broadcast_signal tl).branches = tl.branches := by
    intro l
    induction l with
    | nil => intro tl; rfl
    | cons s rest ih =>
      intro tl
      rw [List.foldl_cons, ih]
      cases tl
      rfl
  rw [hb]
  cases t
  rfl

/-- Claim C3 (corrected), counterexample: broadcasting a signal whose
timestamp (3) is older than the current time (5) moves the timeline's
current time backwards; nothing is rejected or clamped. -/
theorem C3_counterexample :
    Frac.lt ((TimelineDB.empty.broadcast_signal sigLate).broadcast_signal sigEarly).current_time
      (TimelineDB.empty.broadcast_signal sigLate).current_time := by
  decide

/-- Claim C3 (amended): `broadcast_signal` appends the signal and sets the
current time to the signal's timestamp unconditionally; the current time
is non-decreasing only under the extra assumption that the incoming
signal's timestamp is at least the current time. -/
theorem C3_broadcast_clock (t : TimelineDB) (s : Signal)
    (h : Frac.le t.current_time s.timestamp) :
    (t.broadcast_signal s).current_time = s.timestamp ∧
    (t.broadcast_signal s).signals = t.signals ++ [s] ∧
    Frac.le t.current_time (t.broadcast_signal s).current_time :=
  ⟨rfl, rfl, h⟩

theorem C3_broadcast_clock_witness :
    (TimelineDB.empty.broadcast_signal sigLate).current_time = sigLate.timestamp ∧
    (TimelineDB.empty.broadcast_signal sigLate).signals =
      TimelineDB.empty.signals ++ [sigLate] ∧
    Frac.le TimelineDB.empty.current_time
      (TimelineDB.empty.broadcast_signal sigLate).current_time :=
  C3_broadcast_clock TimelineDB.empty sigLate (by decide)

/-- Claim C9 (corrected), counterexample: `get_bond` on an absent pair does
NOT add the pair to the collapsed set (the claim asserts it is added
whether present or absent). -/
theorem C9_counterexample :
    (RelationshipMatrix.get_bond {} "a" "b").1 = none ∧
    ("a", "b") ∉ (RelationshipMatrix.get_bond {} "a" "b").2.collapsed_bonds := by
  decide

/-- Claim C9 (amended): `get_bond` returns the stored bond for the
normalized pair, changes no bond data, and adds the pair to the collapsed
set exactly when a bond is present (when absent the matrix is untouched). -/
theorem C9_get_bond_effect (a b : String) (m : RelationshipMatrix) :
    (m.get_bond a b).1 = dictLookup (normalize_key a b) m.bonds ∧
    (m.get_bond a b).2.bonds = m.bonds ∧
    (m.get_bond a b).2.collapsed_bonds =
      (if (dictLookup (normalize_key a b) m.bonds).isSome
       then setInsert (normalize_key a b) m.collapsed_bonds
       else m.collapsed_bonds) := by
  unfold RelationshipMatrix.get_bond
  cases h : dictLookup (normalize_key a b) m.bonds <;> simp [h]

/-- Claim C8 (code bug): immediately after engine initialization the
derived bonds view is inconsistent with the RelationshipMatrix.  The seed
bond `kai`–`oni` names `oni`, which is not in the roster (nor is it in
kai's bonds set), and the seed bonds `flameblade`–`heartshard` and
`ayni`–`ion` were never mirrored into those entities' bonds sets. -/
theorem C8_initial_bonds_inconsistent :
    (dictLookup ("kai", "oni") initialState.bonds.bonds).isSome = true ∧
    dictLookup "oni" initialState.entities = none ∧
    "oni" ∉ ((dictLookup "kai" initialState.entities).getD default).bonds ∧
    (dictLookup ("flameblade", "heartshard") initialState.bonds.bonds).isSome = true ∧
    "heartshard" ∉ ((dictLookup "flameblade" initialState.entities).getD default).bonds ∧
    (dictLookup ("ayni", "ion") initialState.bonds.bonds).isSome = true ∧
    "ion" ∉ ((dictLookup "ayni" initialState.entities).getD default).bonds := by
  decide

theorem Frac.one_inUnit : Frac.one.inUnit := by decide

theorem Frac.inUnit_fmin_one_add_half (x s : Frac) (hx : x.inUnit) (hs : s.inUnit) :
    (Frac.fmin Frac.one (x.add (s.mul ⟨1, 2⟩))).inUnit := by
  obtain ⟨hxd, hxn0, hxn1⟩ := hx
  obtain ⟨hsd, hsn0, hsn1⟩ := hs
  unfold Frac.fmin Frac.add Frac.mul Frac.one Frac.inUnit Frac.le
  dsimp only
  split_ifs with h
  · exact ⟨by norm_num, by norm_num, by norm_num⟩
  · rw [not_le] at h
    refine ⟨by positivity, by positivity, ?_⟩
    dsimp only
    nlinarith [h]

theorem Frac.clamp01_inUnit (u : Frac) : (Frac.clamp01 u).inUnit := by
  unfold Frac.clamp01 Frac.fmin Frac.fmax Frac.inUnit Frac.le Frac.zero Frac.one
  dsimp only
  split_ifs with h1 h2 h3 <;>
    refine ⟨?_, ?_, ?_⟩ <;> simp_all <;> omega

theorem Frac.uniform_bounds (u : Frac) :
    Frac.le ⟨3, 10⟩ (Frac.add ⟨3, 10⟩ ((Frac.sub ⟨7, 10⟩ ⟨3, 10⟩).mul (Frac.clamp01 u))) ∧
    Frac.le (Frac.add ⟨3, 10⟩ ((Frac.sub ⟨7, 10⟩ ⟨3, 10⟩).mul (Frac.clamp01 u))) ⟨7, 10⟩ := by
  obtain ⟨hd, h0, h1⟩ := Frac.clamp01_inUnit u
  unfold Frac.le Frac.add Frac.mul Frac.sub
  dsimp only
  constructor <;> nlinarith [hd, h0, h1]

theorem create_bond_preserves_inUnit (m : RelationshipMatrix) (a b : String)
    (t : BondType) (s now : Frac) (hm : strengthsInUnit m) (hs : s.inUnit) :
    strengthsInUnit (m.create_bond a b t s now) := by
  intro kb hkb
  unfold RelationshipMatrix.create_bond at hkb
  cases hl : dictLookup (normalize_key a b) m.bonds with
  | some old =>
    simp only [hl] at hkb
    rcases mem_dictInsert _ _ _ _ hkb with hkb | hkb
    · subst hkb
      exact Frac.inUnit_fmin_one_add_half old.strength s
        (hm (normalize_key a b, old) (dictLookup_mem hl)) hs
    · exact hm kb hkb
  | none =>
    simp only [hl] at hkb
    rcases mem_dictInsert _ _ _ _ hkb with hkb | hkb
    · subst hkb; exact hs
    · exact hm kb hkb

/-- Claim C2 (corrected), counterexample: creating a NEW bond stores its
strength argument unclamped, so the strength argument 2 yields a stored
bond strength outside [0, 1]. -/
theorem C2_counterexample :
    ¬ strengthsInUnit (RelationshipMatrix.create_bond {} "a" "b" BondType.trust ⟨2, 1⟩ ⟨0, 1⟩) := by
  decide

/-- Claim C2 (amended): after any sequence of `create_or_strengthen_bond`
calls whose strength arguments all lie in [0, 1], every stored bond
strength lies in [0, 1]; strengthening an existing bond stores
`min(1, old + new * 0.5)` and keeps the remaining fields.  (Creating a new
bond stores the argument unclamped, so the [0, 1] restriction on the
arguments is necessary.) -/
theorem C2_strength_bounds (calls : List CreateCall) (m : RelationshipMatrix)
    (hm : strengthsInUnit m) (hc : ∀ c ∈ calls, Frac.inUnit c.s) :
    strengthsInUnit (applyCreateCalls calls m) ∧
    ∀ (a b : String) (t : BondType) (s now : Frac) (m' : RelationshipMatrix) (old : Bond),
      dictLookup (normalize_key a b) m'.bonds = some old →
      dictLookup (normalize_key a b) (m'.create_bond a b t s now).bonds =
        some ({ old with strength := Frac.fmin Frac.one (old.strength.add (s.mul ⟨1, 2⟩)) }) := by
  constructor
  · induction calls generalizing m with
    | nil => exact hm
    | cons c rest ih =>
      have hstep : applyCreateCalls (c :: rest) m =
          applyCreateCalls rest (m.create_bond c.a c.b c.t c.s c.now) := rfl
      rw [hstep]
      exact ih (m.create_bond c.a c.b c.t c.s c.now)
        (create_bond_preserves_inUnit m c.a c.b c.t c.s c.now hm
          (hc c (List.mem_cons_self _ _)))
        (fun c' h' => hc c' (List.mem_cons_of_mem _ h'))
  · intro a b t s now m' old hold
    unfold RelationshipMatrix.create_bond
    simp only [hold]
    exact dictLookup_insert_self _ _ _

theorem C2_strength_bounds_witness :
    (strengthsInUnit (applyCreateCalls
        [⟨"a", "b", BondType.trust, ⟨1, 2⟩, ⟨0, 1⟩⟩,
         ⟨"b", "a", BondType.mirror, ⟨1, 1⟩, ⟨1, 1⟩⟩] {}) ∧
      ∀ (a b : String) (t : BondType) (s now : Frac) (m' : RelationshipMatrix) (old : Bond),
        dictLookup (normalize_key a b) m'.bonds = some old →
        dictLookup (normalize_key a b) (m'.create_bond a b t s now).bonds =
          some ({ old with strength := Frac.fmin Frac.one (old.strength.add (s.mul ⟨1, 2⟩)) })) :=
  C2_strength_bounds _ {} (by decide) (by decide)

theorem broadcast_exclusions (t : TimelineDB) (s : Signal) :
    (t.broadcast_signal s).exclusions = t.exclusions := by
  cases t; rfl

theorem broadcast_branches (t : TimelineDB) (s : Signal) :
    (t.broadcast_signal s).branches = t.branches := by
  cases t; rfl

theorem branch_parent_exclusions (t : TimelineDB) (e : ExclusionEvent)
    (nb : List ((String × String) × (String × Frac))) :
    (t.branch_from_exclusion e nb).1.exclusions = t.exclusions := by
  cases t; rfl

theorem branch_parent_branches (t : TimelineDB) (e : ExclusionEvent)
    (nb : List ((String × String) × (String × Frac))) :
    (t.branch_from_exclusion e nb).1.branches =
      t.branches ++ [(t.branch_from_exclusion e nb).2] := by
  cases t; rfl

theorem generate_playthrough (st : HeartShardEngine) (bs : Signal) (env : Env) :
    (generate_next_generation st bs env).2.1.playthrough = st.playthrough := by
  unfold generate_next_generation
  dsimp only
  split <;> rfl

theorem generate_timeline (st : HeartShardEngine) (bs : Signal) (env : Env) :
    (generate_next_generation st bs env).2.1.timeline = st.timeline := by
  unfold generate_next_generation
  dsimp only
  split <;> rfl

theorem branch_child_exclusions (t : TimelineDB) (e : ExclusionEvent)
    (nb : List ((String × String) × (String × Frac))) :
    (t.branch_from_exclusion e nb).2.exclusions = t.exclusions := rfl

theorem generate_entity_lookup (nm : String) (st : HeartShardEngine) (bs : Signal)
    (env : Env) (p : Entity) (ie : Bool) (kd : EntityKind)
    (hsrc : bs.source = nm) (h : dictLookup nm st.entities = some p)
    (hie : p.inside_eye = ie) (hkd : p.kind = kd) :
    ∃ q, dictLookup nm (generate_next_generation st bs env).2.1.entities = some q ∧
      q.inside_eye = ie ∧ q.kind = kd := by
  subst hie hkd
  unfold generate_next_generation
  dsimp only
  rw [hsrc, h]
  dsimp only
  exact ⟨_, dictLookup_insert_self _ _ _, rfl, rfl⟩

theorem mawSuccess_spec (nm : String) (c : Entity) (st : HeartShardEngine) (env : Env) :
    (mawSuccess nm c st env).1.isSuccess = true ∧
    (mawSuccess nm c st env).2.1.playthrough = st.playthrough + 1 ∧
    (∃ c', dictLookup nm (mawSuccess nm c st env).2.1.entities = some c' ∧
      c'.inside_eye = true ∧ c'.kind = c.kind) ∧
    (mawSuccess nm c st env).2.1.timeline.exclusions = st.timeline.exclusions ∧
    (∃ child, (mawSuccess nm c st env).2.1.timeline.branches =
        st.timeline.branches ++ [child] ∧
      child.branch_point = some (env.times env.tIdx) ∧
      child.current_time = ⟨0, 1⟩ ∧
      child.exclusions = st.timeline.exclusions) := by
  unfold mawSuccess
  dsimp only
  refine ⟨rfl, ?_, ?_, ?_, ?_⟩
  · rw [generate_playthrough]
  · exact generate_entity_lookup nm _ _ _ ({ c with inside_eye := true }) true c.kind
      rfl (dictLookup_insert_self _ _ _) rfl rfl
  · rw [branch_parent_exclusions]
    try rw [generate_timeline]
    try dsimp only
    rw [broadcast_exclusions]
  · rw [branch_parent_branches]
    try rw [generate_timeline]
    try dsimp only
    rw [broadcast_branches]
    refine ⟨_, rfl, rfl, rfl, ?_⟩
    rw [branch_child_exclusions]
    try rw [generate_timeline]
    try dsimp only
    rw [broadcast_exclusions]

/-- Claim C6: when a first `enter_maw` call on a name succeeds, a second
call on the same name returns `AlreadyExcluded` and leaves the engine
state (in particular the entered set and the playthrough counter)
unchanged; a successful call increments the playthrough counter by exactly
1, and every failed call leaves the engine state unchanged. -/
theorem C6_enter_maw_repeat (st : HeartShardEngine) (nm : String) (env : Env) :
    ((enter_the_maw st nm env).1.isSuccess = true →
      (enter_the_maw st nm env).2.1.playthrough = st.playthrough + 1 ∧
      (enter_the_maw (enter_the_maw st nm env).2.1 nm (enter_the_maw st nm env).2.2).1 =
        MawResult.alreadyExcluded ∧
      (enter_the_maw (enter_the_maw st nm env).2.1 nm (enter_the_maw st nm env).2.2).2.1 =
        (enter_the_maw st nm env).2.1) ∧
    ((enter_the_maw st nm env).1.isSuccess = false →
      (enter_the_maw st nm env).2.1 = st) := by
  cases h : dictLookup nm st.entities with
  | none =>
    have he : enter_the_maw st nm env = (MawResult.invalidEntity, st, env) := by
      simp [enter_the_maw, h]
    rw [he]
    exact ⟨fun hs => by simp [MawResult.isSuccess] at hs, fun _ => rfl⟩
  | some c =>
    by_cases hk : c.kind = EntityKind.character
    · by_cases hin : c.inside_eye = true
      · have he : enter_the_maw st nm env = (MawResult.alreadyExcluded, st, env) := by
          simp [enter_the_maw, h, hk, hin]
        rw [he]
        exact ⟨fun hs => by simp [MawResult.isSuccess] at hs, fun _ => rfl⟩
      · by_cases hce : c.can_enter_eye = true
        · have he : enter_the_maw st nm env = mawSuccess nm c st env := by
            simp [enter_the_maw, h, hk, hin, hce]
          rw [he]
          obtain ⟨hsucc, hp, ⟨c', hc', hcin, hckind⟩, _, _⟩ := mawSuccess_spec nm c st env
          refine ⟨fun _ => ⟨hp, ?_, ?_⟩, fun hf => absurd hsucc (by simp [hf])⟩
          · simp [enter_the_maw, hc', hckind, hk, hcin]
          · simp [enter_the_maw, hc', hckind, hk, hcin]
        · have he : enter_the_maw st nm env = (MawResult.notReady, st, env) := by
            simp [enter_the_maw, h, hk, hin, hce]
          rw [he]
          exact ⟨fun hs => by simp [MawResult.isSuccess] at hs, fun _ => rfl⟩
    · have he : enter_the_maw st nm env = (MawResult.invalidEntity, st, env) := by
        simp [enter_the_maw, h, hk]
      rw [he]
      exact ⟨fun hs => by simp [MawResult.isSuccess] at hs, fun _ => rfl⟩

theorem C6_enter_maw_repeat_witness :
    (enter_the_maw initialState "lila" initialEnv).2.1.playthrough =
      initialState.playthrough + 1 ∧
    (enter_the_maw (enter_the_maw initialState "lila" initialEnv).2.1 "lila"
        (enter_the_maw initialState "lila" initialEnv).2.2).1 =
      MawResult.alreadyExcluded ∧
    (enter_the_maw (enter_the_maw initialState "lila" initialEnv).2.1 "lila"
        (enter_the_maw initialState "lila" initialEnv).2.2).2.1 =
      (enter_the_maw initialState "lila" initialEnv).2.1 :=
  (C6_enter_maw_repeat initialState "lila" initialEnv).1 (by decide)

/-- Claim C1 (corrected), counterexample: a successful `enter_the_maw` call
(lila on the freshly initialized engine) grows the entered set to size 1,
yet the timeline's exclusion log stays empty — the ExclusionEvent is never
appended to it (and its healing metric is the literal 0.0, not
1/|entered set| = 1). -/
theorem C1_counterexample :
    (enter_the_maw initialState "lila" initialEnv).1.isSuccess = true ∧
    (enter_the_maw initialState "lila" initialEnv).2.1.entered_eye = ["lila"] ∧
    (enter_the_maw initialState "lila" initialEnv).2.1.timeline.exclusions = [] := by
  decide

/-- Claim C1 (amended): every successful `enter_maw` call builds its
ExclusionEvent with healing metric 0.0 (not 1/|entered set|) and with
`eye_closed` left false; the event is NOT appended to the timeline's
exclusion log (which is unchanged); the call does create a timeline branch
from the event — a child whose branch point is the birth signal's
timestamp and whose clock is reset to 0. -/
theorem C1_exclusion_event (st : HeartShardEngine) (nm : String) (env : Env)
    (h : (enter_the_maw st nm env).1.isSuccess = true) :
    (enter_the_maw st nm env).2.1.timeline.exclusions = st.timeline.exclusions ∧
    (∃ child, (enter_the_maw st nm env).2.1.timeline.branches =
        st.timeline.branches ++ [child] ∧
      child.branch_point = some (env.times env.tIdx) ∧
      child.current_time = ⟨0, 1⟩) ∧
    (∀ (n : String) (ms : MatrixSnapshot) (ws : TimelineSnapshot) (ts : Frac),
      (mawExclusionEvent n ms ws ts).vincent_healing = ⟨0, 1⟩ ∧
      (mawExclusionEvent n ms ws ts).eye_closed = false) := by
  cases hl : dictLookup nm st.entities with
  | none => simp [enter_the_maw, hl, MawResult.isSuccess] at h
  | some c =>
    by_cases hk : c.kind = EntityKind.character
    · by_cases hin : c.inside_eye = true
      · simp [enter_the_maw, hl, hk, hin, MawResult.isSuccess] at h
      · by_cases hce : c.can_enter_eye = true
        · have he : enter_the_maw st nm env = mawSuccess nm c st env := by
            simp [enter_the_maw, hl, hk, hin, hce]
          rw [he]
          obtain ⟨_, _, _, hex, ⟨child, hbr, hbp, hct, _⟩⟩ := mawSuccess_spec nm c st env
          exact ⟨hex, ⟨child, hbr, hbp, hct⟩, fun n ms ws ts => ⟨rfl, rfl⟩⟩
        · simp [enter_the_maw, hl, hk, hin, hce, MawResult.isSuccess] at h
    · simp [enter_the_maw, hl, hk, MawResult.isSuccess] at h

theorem C1_exclusion_event_witness :
    (enter_the_maw initialState "lila" initialEnv).2.1.timeline.exclusions =
      initialState.timeline.exclusions ∧
    (∃ child, (enter_the_maw initialState "lila" initialEnv).2.1.timeline.branches =
        initialState.timeline.branches ++ [child] ∧
      child.branch_point = some (initialEnv.times initialEnv.tIdx) ∧
      child.current_time = ⟨0, 1⟩) ∧
    (∀ (n : String) (ms : MatrixSnapshot) (ws : TimelineSnapshot) (ts : Frac),
      (mawExclusionEvent n ms ws ts).vincent_healing = ⟨0, 1⟩ ∧
      (mawExclusionEvent n ms ws ts).eye_closed = false) :=
  C1_exclusion_event initialState "lila" initialEnv (by decide)

theorem bondTypeList_getD_mem (n : Nat) :
    bondTypeList.getD n BondType.trust ∈ bondTypeList := by
  match n with
  | 0 => decide
  | 1 => decide
  | 2 => decide
  | 3 => decide
  | 4 => decide
  | 5 => decide
  | 6 => decide
  | (k + 7) =>
    have hlen : bondTypeList.length ≤ k + 7 := Nat.le_add_left 7 k
    rw [List.getD_eq_default _ _ hlen]
    decide

/-- Claim C10: when exactly one of `a` and `b` has a prior bond to the
excluded mediator, `collapse_new_bond` ignores that bond's type and
strength entirely and behaves as in the no-prior-connection case: the new
bond's type is the `random.choice` draw over the full 7-member bond-type
list and its strength is the `random.uniform(0.3, 0.7)` draw, which always
lies in [0.3, 0.7]. -/
theorem C10_collapse_one_sided (m : RelationshipMatrix) (a b med : String) (env : Env)
    (h : (dictLookup (normalize_key a med) m.bonds).isSome ≠
      (dictLookup (normalize_key b med) m.bonds).isSome) :
    (m.collapse_new_bond a b med env).1 =
      { entity_a := a, entity_b := b,
        bond_type := bondTypeList.getD (env.choices env.cIdx % bondTypeList.length)
          BondType.trust,
        strength := Frac.add ⟨3, 10⟩
          ((Frac.sub ⟨7, 10⟩ ⟨3, 10⟩).mul (Frac.clamp01 (env.unifs env.uIdx))),
        formed_at := env.times env.tIdx, signals := [] } ∧
    (m.collapse_new_bond a b med env).1.bond_type ∈ bondTypeList ∧
    bondTypeList.length = 7 ∧
    Frac.le ⟨3, 10⟩ (m.collapse_new_bond a b med env).1.strength ∧
    Frac.le (m.collapse_new_bond a b med env).1.strength ⟨7, 10⟩ := by
  have heq : (m.collapse_new_bond a b med env).1 =
      { entity_a := a, entity_b := b,
        bond_type := bondTypeList.getD (env.choices env.cIdx % bondTypeList.length)
          BondType.trust,
        strength := Frac.add ⟨3, 10⟩
          ((Frac.sub ⟨7, 10⟩ ⟨3, 10⟩).mul (Frac.clamp01 (env.unifs env.uIdx))),
        formed_at := env.times env.tIdx, signals := [] } := by
    unfold RelationshipMatrix.collapse_new_bond RelationshipMatrix.get_bond
      Env.choice Env.uniform Env.randomUnit Env.now
    cases hA : dictLookup (normalize_key a med) m.bonds <;>
      cases hB : dictLookup (normalize_key b med) m.bonds <;>
      simp [hA, hB] at h ⊢
  rw [heq]
  refine ⟨rfl, bondTypeList_getD_mem _, rfl, ?_, ?_⟩
  · exact (Frac.uniform_bounds (env.unifs env.uIdx)).1
  · exact (Frac.uniform_bounds (env.unifs env.uIdx)).2

theorem C10_collapse_one_sided_witness :
    (oneSidedMatrix.collapse_new_bond "a" "b" "m" env0).1 =
      ({ entity_a := "a", entity_b := "b",
         bond_type := bondTypeList.getD (env0.choices env0.cIdx % bondTypeList.length)
           BondType.trust,
         strength := Frac.add ⟨3, 10⟩
           ((Frac.sub ⟨7, 10⟩ ⟨3, 10⟩).mul (Frac.clamp01 (env0.unifs env0.uIdx))),
         formed_at := env0.times env0.tIdx, signals := [] }) ∧
    (oneSidedMatrix.collapse_new_bond "a" "b" "m" env0).1.bond_type ∈ bondTypeList ∧
    bondTypeList.length = 7 ∧
    Frac.le ⟨3, 10⟩ (oneSidedMatrix.collapse_new_bond "a" "b" "m" env0).1.strength ∧
    Frac.le (oneSidedMatrix.collapse_new_bond "a" "b" "m" env0).1.strength ⟨7, 10⟩ :=
  C10_collapse_one_sided oneSidedMatrix "a" "b" "m" env0 (by decide)
